import Mathlib

/-!
Shallow embedding of the SEC EDGAR log-processing pipeline
(`scripts/lib/sec_edgar.py` and `scripts/lib/ip_retriever.py`): IP
normalization, RPV bot filtering, stage orchestration, the geolocation
lookup cache, the external-lookup retry loop and the country-name
mapping, together with theorems checking the specification's claims
against these definitions.
-/

/-- Models one step of the sub-pattern `(\d{1,3})\.` of the regex
`^(\d{1,3})\.(\d{1,3})\.(\d{1,3})\.[^.\s]+$` used by `cleaning_data`
(sec_edgar.py line 291): take the maximal leading digit run; the match
succeeds when it has length 1..3 and is followed by a literal dot (with
backtracking, a shorter split can never succeed since it would leave a
digit where the dot is required). Digits are modelled as ASCII digits. -/
def splitOctet (cs : List Char) : Option (List Char × List Char) :=
  let ds := cs.takeWhile Char.isDigit
  match cs.dropWhile Char.isDigit with
  | '.' :: t => if 1 ≤ ds.length ∧ ds.length ≤ 3 then some (ds, t) else none
  | _ => none

/-- The final regex segment `[^.\s]+$`: non-empty, reaching the end of
the string, containing no dot and no whitespace. -/
def lastSegmentOk (cs : List Char) : Bool :=
  !cs.isEmpty && cs.all (fun c => c != '.' && !c.isWhitespace)

/-- The three captured octet groups of the `cleaning_data` IPv4 pattern
(`str.extract_groups` / `str.extract`, sec_edgar.py lines 291-301), when
the raw string matches the 4-segment dotted shape. -/
def extract_groups (s : String) : Option (String × String × String) :=
  match splitOctet s.data with
  | none => none
  | some (a, r1) =>
    match splitOctet r1 with
    | none => none
    | some (b, r2) =>
      match splitOctet r2 with
      | none => none
      | some (c, r3) =>
        if lastSegmentOk r3 then some (⟨a⟩, ⟨b⟩, ⟨c⟩) else none

/-- The `cleaned_ip` column of `cleaning_data` (lines 292-301): on a
regex match, the three captured octets re-joined with a zeroed last
octet; otherwise null. -/
def cleaned_ip (s : String) : Option String :=
  (extract_groups s).map (fun g => g.1 ++ "." ++ g.2.1 ++ "." ++ g.2.2 ++ ".0")

/-- Splitting a character list on the dot separator, as Python's
`str.split(".")` does (an empty string yields one empty group). -/
def splitOnDot : List Char → List (List Char)
  | [] => [[]]
  | c :: rest =>
    match splitOnDot rest with
    | [] => []
    | g :: gs => if c = '.' then [] :: g :: gs else (c :: g) :: gs

/-- One octet as parsed by Python `ipaddress.IPv4Address`: one to three
ASCII digits, no leading zero, value at most 255; `none` models the
`AddressValueError` the constructor raises. -/
def octetVal (cs : List Char) : Option Nat :=
  if cs.isEmpty then none
  else if !cs.all Char.isDigit then none
  else if 3 < cs.length then none
  else if 1 < cs.length ∧ cs.head? = some '0' then none
  else
    let v := cs.foldl (fun n c => n * 10 + (c.toNat - 48)) 0
    if v ≤ 255 then some v else none

/-- Python `int(ipaddress.IPv4Address(s))` (sec_edgar.py line 305 and
ip_retriever.py line 183): the big-endian 32-bit value of a dotted-quad
string, or `none` when the constructor raises. -/
def ipStrToInt (s : String) : Option Nat :=
  match splitOnDot s.data with
  | [t0, t1, t2, t3] =>
    match octetVal t0, octetVal t1, octetVal t2, octetVal t3 with
    | some a, some b, some c, some d => some (((a * 256 + b) * 256 + c) * 256 + d)
    | _, _, _, _ => none
  | _ => none

/-- The pair of derived columns `cleaned_ip` and `cleaned_ip_int` of
`cleaning_data` (lines 291-307) for one raw `ip` value. `Except.error`
models the uncaught exception raised by `int(IPv4Address(x))` inside
`map_elements` when the reconstructed `a.b.c.0` string is not a valid
IPv4 address; `map_elements` skips nulls, so a null `cleaned_ip` yields
a null `cleaned_ip_int`. -/
def cleaned_ip_columns (ip : String) : Except Unit (Option String × Option Nat) :=
  match cleaned_ip ip with
  | none => .ok (none, none)
  | some c =>
    match ipStrToInt c with
    | some n => .ok (some c, some n)
    | none => .error ()

theorem octetVal_le {t : List Char} {v : Nat} (h : octetVal t = some v) : v ≤ 255 := by
  simp only [octetVal] at h
  repeat' split at h
  all_goals simp_all

theorem ipStrToInt_lt {s : String} {n : Nat} (h : ipStrToInt s = some n) :
    n < 4294967296 := by
  unfold ipStrToInt at h
  split at h
  · split at h
    · rename_i a b c d ha hb hc hd
      have h1 := octetVal_le ha
      have h2 := octetVal_le hb
      have h3 := octetVal_le hc
      have h4 := octetVal_le hd
      injection h with h'
      omega
    · exact absurd h (by simp)
  · exact absurd h (by simp)

/-- C1: raw IP string `256.1.1.1` matches the cleaning regex, so the
reconstructed address `256.1.1.0` is handed to `IPv4Address`, which
raises and aborts the whole cleaning stage — computing the cleaned
columns does not return a pair at all on this input. -/
theorem ip_normalization_raises :
    cleaned_ip "256.1.1.1" = some "256.1.1.0" ∧
    cleaned_ip_columns "256.1.1.1" = .error () := ⟨rfl, rfl⟩

/-- C7 counterexample: `300.20.10.1` matches the 4-segment dotted shape,
yet computing the cleaned pair raises instead of producing the claimed
cleaned string and big-endian integer. -/
theorem normalize_shape_match_raises :
    cleaned_ip "300.20.10.1" = some "300.20.10.0" ∧
    cleaned_ip_columns "300.20.10.1" = .error () := ⟨rfl, rfl⟩

/-- C7 (amended): the cleaned pair is `(null, null)` iff the raw string
does not match the 4-segment dotted shape; on a match the cleaned string
always ends in `.0`, and either the zeroed address is a valid IPv4
address, in which case its big-endian 32-bit value is returned, or the
computation raises. The scenario `192.168.1.55` yields
`("192.168.1.0", 3232235776)`. -/
theorem normalize_shape_spec (s : String) :
    (cleaned_ip_columns s = .ok (none, none) ↔ cleaned_ip s = none) ∧
    (∀ c, cleaned_ip s = some c →
      (∃ t, c = t ++ ".0") ∧
      ((∃ n, ipStrToInt c = some n ∧ n < 4294967296 ∧
          cleaned_ip_columns s = .ok (some c, some n)) ∨
       (ipStrToInt c = none ∧ cleaned_ip_columns s = .error ()))) ∧
    cleaned_ip_columns "192.168.1.55" = .ok (some "192.168.1.0", some 3232235776) := by
  refine ⟨⟨?_, ?_⟩, ?_, by rfl⟩
  · intro h
    cases hc : cleaned_ip s with
    | none => rfl
    | some c =>
      cases hn : ipStrToInt c with
      | none => simp [cleaned_ip_columns, hc, hn] at h
      | some n => simp [cleaned_ip_columns, hc, hn] at h
  · intro hc
    simp [cleaned_ip_columns, hc]
  · intro c hc
    constructor
    · obtain ⟨g, _, hmap⟩ := Option.map_eq_some'.mp hc
      exact ⟨g.1 ++ "." ++ g.2.1 ++ "." ++ g.2.2, hmap.symm⟩
    · cases hn : ipStrToInt c with
      | some n => exact Or.inl ⟨n, rfl, ipStrToInt_lt hn, by simp [cleaned_ip_columns, hc, hn]⟩
      | none => exact Or.inr ⟨rfl, by simp [cleaned_ip_columns, hc, hn]⟩

/-- C7 witness: the amended statement instantiated at the scenario input
`192.168.1.55`. -/
theorem normalize_shape_spec_witness :
    (∃ t, "192.168.1.0" = t ++ ".0") ∧
    ((∃ n, ipStrToInt "192.168.1.0" = some n ∧ n < 4294967296 ∧
        cleaned_ip_columns "192.168.1.55" = .ok (some "192.168.1.0", some n)) ∨
     (ipStrToInt "192.168.1.0" = none ∧
        cleaned_ip_columns "192.168.1.55" = .error ())) :=
  (normalize_shape_spec "192.168.1.55").2.1 "192.168.1.0" rfl

/-- One raw access-log row as read by `cleaning_data`. The `date` and
`time` string columns are embedded numerically (day index and
second-of-day); the derived `datetime` of sec_edgar.py lines 231-234 is
then the absolute second `date * 86400 + time`. -/
structure LogRecord where
  date : Nat
  time : Nat
  ip : String
  cik : String
  accession : String
  code : Int
  idx : Int
  crawler : Int
deriving DecidableEq, Repr

/-- The row restriction of `cleaning_data` (lines 227-230):
`code == 200 AND idx == 0 AND crawler == 0`. -/
def qualifies (r : LogRecord) : Bool :=
  r.code == 200 && r.idx == 0 && r.crawler == 0

/-- The minute-truncated timestamp `datetime.dt.truncate("1m")` used by
the per-minute groupings (lines 248-251 and 260-263). -/
def minuteOf (r : LogRecord) : Nat :=
  (r.date * 86400 + r.time) / 60

/-- Requests from one ip inside one minute bucket (lines 247-254). -/
def no_of_requests_per_minute (q : List LogRecord) (ip : String) (m : Nat) : Nat :=
  (q.filter (fun r => r.ip == ip && minuteOf r == m)).length

/-- RPV rule 1 (lines 247-257): more than 25 requests from the same ip
within some single minute. -/
def rpv_cond1 (q : List LogRecord) (ip : String) : Bool :=
  q.any (fun r => r.ip == ip && decide (25 < no_of_requests_per_minute q ip (minuteOf r)))

/-- Distinct cik values accessed by one ip inside one minute bucket
(lines 259-266). -/
def no_of_unique_ciks (q : List LogRecord) (ip : String) (m : Nat) : Nat :=
  ((q.filter (fun r => r.ip == ip && minuteOf r == m)).map (fun r => r.cik)).dedup.length

/-- RPV rule 2 (lines 259-269): more than 3 distinct ciks from the same
ip within some single minute. -/
def rpv_cond2 (q : List LogRecord) (ip : String) : Bool :=
  q.any (fun r => r.ip == ip && decide (3 < no_of_unique_ciks q ip (minuteOf r)))

/-- Total requests from one ip over the whole dataset (lines 271-274). -/
def no_of_requests_per_day (q : List LogRecord) (ip : String) : Nat :=
  (q.filter (fun r => r.ip == ip)).length

/-- RPV rule 3 (lines 271-278): more than 500 requests from the same ip
over the whole dataset. -/
def rpv_cond3 (q : List LogRecord) (ip : String) : Bool :=
  decide (500 < no_of_requests_per_day q ip)

/-- The union of the three RPV rules (lines 281-285): ip is classified
as a bot when any rule flags it. -/
def bot_ips (q : List LogRecord) (ip : String) : Bool :=
  rpv_cond1 q ip || rpv_cond2 q ip || rpv_cond3 q ip

/-- The bot anti-join of `cleaning_data` (line 288): the qualifying rows
whose ip was not flagged by any RPV rule. -/
def filtered_df (l : List LogRecord) : List LogRecord :=
  let q := l.filter qualifies
  q.filter (fun r => !bot_ips q r.ip)

/-- One row of the cleaned-stage output: the surviving record plus the
derived `cleaned_ip` and `cleaned_ip_int` columns. -/
structure CleanedRecord where
  row : LogRecord
  cleaned_ip : Option String
  cleaned_ip_int : Option Nat
deriving DecidableEq, Repr

/-- Appends the cleaned-IP columns row by row (lines 291-307); an
exception while computing any row aborts the whole `collect`, modelled
by `Except.error`. -/
def attach_cleaned : List LogRecord → Except Unit (List CleanedRecord)
  | [] => .ok []
  | r :: rs =>
    match cleaned_ip_columns r.ip, attach_cleaned rs with
    | .ok p, .ok rest => .ok (⟨r, p.1, p.2⟩ :: rest)
    | _, _ => .error ()

/-- The full `cleaning_data` stage (lines 210-311): qualifying-row
filter, RPV bot anti-join, then the cleaned-IP columns. -/
def cleaning_data (l : List LogRecord) : Except Unit (List CleanedRecord) :=
  attach_cleaned (filtered_df l)

theorem attach_cleaned_mem {rs : List LogRecord} {ys : List CleanedRecord}
    (h : attach_cleaned rs = .ok ys) : ∀ cr ∈ ys, cr.row ∈ rs := by
  induction rs generalizing ys with
  | nil =>
    simp only [attach_cleaned] at h
    injection h with h'
    subst h'
    simp
  | cons r rs ih =>
    intro cr hcr
    simp only [attach_cleaned] at h
    cases h1 : cleaned_ip_columns r.ip with
    | error e => rw [h1] at h; exact absurd h (by simp)
    | ok p =>
      cases h2 : attach_cleaned rs with
      | error e => rw [h1, h2] at h; exact absurd h (by simp)
      | ok rest =>
        rw [h1, h2] at h
        injection h with h'
        subst h'
        rcases List.mem_cons.mp hcr with h3 | h3
        · subst h3; exact List.mem_cons_self _ _
        · exact List.mem_cons_of_mem _ (ih h2 cr h3)

theorem mem_filtered_df {l : List LogRecord} {r : LogRecord} (h : r ∈ filtered_df l) :
    r ∈ l ∧ qualifies r = true ∧ bot_ips (l.filter qualifies) r.ip = false := by
  simp only [filtered_df] at h
  have h1 := List.mem_filter.mp h
  have h2 := List.mem_filter.mp h1.1
  exact ⟨h2.1, h2.2, by simpa using h1.2⟩

/-- A sample well-formed qualifying record used by concrete witnesses. -/
def sampleRecord : LogRecord :=
  ⟨0, 0, "10.0.0.1", "cik1", "acc1", 200, 0, 0⟩

/-- C10: every record surviving into the cleaned-stage output satisfies
`code == 200`, `idx == 0` and `crawler == 0`: the restriction is applied
to the output data itself, not only to the bot-detection input. -/
theorem cleaned_output_qualifying (l : List LogRecord) (rows : List CleanedRecord)
    (h : cleaning_data l = .ok rows) :
    ∀ cr ∈ rows, cr.row.code = 200 ∧ cr.row.idx = 0 ∧ cr.row.crawler = 0 := by
  intro cr hcr
  have hmem : cr.row ∈ filtered_df l := attach_cleaned_mem h cr hcr
  have hq := (mem_filtered_df hmem).2.1
  simpa [qualifies, Bool.and_eq_true, beq_iff_eq, and_assoc] using hq

/-- C10 witness: the theorem applied to a concrete one-record input whose
record survives the pipeline. -/
theorem cleaned_output_qualifying_witness :
    (⟨sampleRecord, some "10.0.0.0", some 167772160⟩ : CleanedRecord).row.code = 200 ∧
    (⟨sampleRecord, some "10.0.0.0", some 167772160⟩ : CleanedRecord).row.idx = 0 ∧
    (⟨sampleRecord, some "10.0.0.0", some 167772160⟩ : CleanedRecord).row.crawler = 0 :=
  cleaned_output_qualifying [sampleRecord]
    [⟨sampleRecord, some "10.0.0.0", some 167772160⟩] rfl _ (by simp)

/-- C3 counterexample: on a one-record input no RPV rule fires, the bot
filter removes nothing, and the output ip set equals the input ip set —
it is not a strict subset. -/
theorem bot_filter_not_strict_subset :
    ¬ ((∀ x ∈ (filtered_df [sampleRecord]).map (fun r => r.ip),
          x ∈ [sampleRecord].map (fun r => r.ip)) ∧
       ∃ x ∈ [sampleRecord].map (fun r => r.ip),
          x ∉ (filtered_df [sampleRecord]).map (fun r => r.ip)) := by
  decide

/-- C3 (amended): the bot filter's output is a subset, by ip, of its
input (strict only when some ip is actually flagged). -/
theorem bot_filter_subset_by_ip (l : List LogRecord) (x : String)
    (h : x ∈ (filtered_df l).map (fun r => r.ip)) : x ∈ l.map (fun r => r.ip) := by
  obtain ⟨r, hr, rfl⟩ := List.mem_map.mp h
  exact List.mem_map.mpr ⟨r, (mem_filtered_df hr).1, rfl⟩

/-- C3 witness: the subset statement applied to the concrete one-record
input. -/
theorem bot_filter_subset_by_ip_witness :
    "10.0.0.1" ∈ [sampleRecord].map (fun r => r.ip) :=
  bot_filter_subset_by_ip [sampleRecord] "10.0.0.1" (by decide)

/-- C4: an ip with more than 500 qualifying requests over the whole
dataset is flagged by RPV rule 3 and every one of its records is removed
from the bot-filtered rows and from the cleaned output, regardless of
its per-minute distribution. -/
theorem rpv_cond3_excludes (l : List LogRecord) (ip : String)
    (h : 500 < no_of_requests_per_day (l.filter qualifies) ip) :
    rpv_cond3 (l.filter qualifies) ip = true ∧
    (filtered_df l).filter (fun r => r.ip == ip) = [] ∧
    ∀ rows, cleaning_data l = .ok rows →
      rows.filter (fun cr => cr.row.ip == ip) = [] := by
  have h3 : rpv_cond3 (l.filter qualifies) ip = true := by
    simpa [rpv_cond3] using h
  have h2 : (filtered_df l).filter (fun r => r.ip == ip) = [] := by
    rw [List.filter_eq_nil_iff]
    intro r hr hip
    have hb := (mem_filtered_df hr).2.2
    have hipeq : r.ip = ip := by simpa using hip
    rw [hipeq] at hb
    simp [bot_ips, h3] at hb
  refine ⟨h3, h2, ?_⟩
  intro rows hrows
  rw [List.filter_eq_nil_iff]
  intro cr hcr hip
  have hmem : cr.row ∈ filtered_df l := attach_cleaned_mem hrows cr hcr
  have : cr.row ∈ (filtered_df l).filter (fun r => r.ip == ip) :=
    List.mem_filter.mpr ⟨hmem, hip⟩
  rw [h2] at this
  exact absurd this (by simp)

set_option maxRecDepth 4000 in
/-- C4 witness: 501 identical qualifying requests from one ip; the
theorem flags that ip and empties the filtered rows. -/
theorem rpv_cond3_excludes_witness :
    rpv_cond3 ((List.replicate 501 sampleRecord).filter qualifies) "10.0.0.1" = true ∧
    (filtered_df (List.replicate 501 sampleRecord)).filter
      (fun r => r.ip == "10.0.0.1") = [] :=
  ⟨(rpv_cond3_excludes (List.replicate 501 sampleRecord) "10.0.0.1" (by decide)).1,
   (rpv_cond3_excludes (List.replicate 501 sampleRecord) "10.0.0.1" (by decide)).2.1⟩

/-- Which persisted artifacts of one log date already exist on disk when
`preprocess` runs (sec_edgar.py lines 386-449). -/
structure FsState where
  zipExists : Bool
  csvExists : Bool
  parquetExists : Bool
  noBotsExists : Bool
  noBotsIpEnrichedExists : Bool
  cleanedExists : Bool
deriving DecidableEq, Repr

/-- Which stages one `preprocess` invocation executes. -/
structure StagesRun where
  download : Bool
  extract_csv : Bool
  convert_parquet : Bool
  run_cleaning_data : Bool
  run_extract_ip : Bool
  run_clean_country_names : Bool
deriving DecidableEq, Repr

/-- The stage gating of `preprocess` (sec_edgar.py lines 389-449): each
early stage runs when its output artifact is missing or the force flag
is set, while the final country-name cleaning call (lines 448-449) is
issued unconditionally, with no existence check on its output. -/
def preprocess (fs : FsState) (force : Bool) : StagesRun :=
  { download := !fs.zipExists || force
    extract_csv := !fs.csvExists || force
    convert_parquet := !fs.parquetExists || force
    run_cleaning_data := !fs.noBotsExists || force
    run_extract_ip := !fs.noBotsIpEnrichedExists || force
    run_clean_country_names := true }

/-- A filesystem state in which every artifact already exists. -/
def fsAllPresent : FsState := ⟨true, true, true, true, true, true⟩

/-- C2 counterexample: with every artifact present, including the final
cleaned output, and the force flag unset, the country-normalization
stage still runs — its output is not gated by an existence check. -/
theorem preprocess_country_stage_runs_anyway :
    fsAllPresent.cleanedExists = true ∧
    (preprocess fsAllPresent false).run_clean_country_names = true := ⟨rfl, rfl⟩

/-- C2 (amended): the raw-to-filtered and geo-enrichment stages are
gated on the existence of their output artifacts and the force flag, but
the country-normalization stage is issued unconditionally on every run. -/
theorem preprocess_stage_gating (fs : FsState) (force : Bool) :
    (preprocess fs force).run_cleaning_data = (!fs.noBotsExists || force) ∧
    (preprocess fs force).run_extract_ip = (!fs.noBotsIpEnrichedExists || force) ∧
    (preprocess fs force).run_clean_country_names = true := ⟨rfl, rfl, rfl⟩

/-- Geolocation attributes parsed from one successful external API
response (ip_retriever.py lines 79-100), after the wire sentinel
`"Not found"` has been decoded to null; latitude and longitude payloads
are embedded as integers since no claim computes with them. -/
structure LookupData where
  country_code : Option String
  country_name : Option String
  region_name : Option String
  city_name : Option String
  latitude : Option Int
  longitude : Option Int
  zip_code : Option String
  timezone : Option String
deriving DecidableEq, Repr

/-- The observable outcome of one `requests.get` attempt inside
`get_ip_location_from_geolocation_db`: a 200 response with parsed data,
a non-200 response, or a raised exception. -/
inductive AttemptOutcome where
  | success (d : LookupData)
  | non200
  | exc
deriving DecidableEq, Repr

/-- One iteration of the retry loop of
`get_ip_location_from_geolocation_db` (ip_retriever.py lines 67-77).
The first state component holds the parsed response once some attempt
has hit the `break`; the second counts `time.sleep(1)` calls. A non-200
response just falls through to the next attempt with no sleep, while an
exception sleeps one second unless it occurred on the final attempt. -/
def attemptStep (f : Nat → AttemptOutcome) (st : Option LookupData × Nat) (i : Nat) :
    Option LookupData × Nat :=
  match st.1 with
  | some _ => st
  | none =>
    match f i with
    | .success d => (some d, st.2)
    | .non200 => st
    | .exc => (none, if i < 4 then st.2 + 1 else st.2)

/-- The attempt indices of `for attempt in range(5)`. -/
def geoAttempts : List Nat := [0, 1, 2, 3, 4]

/-- The retry loop of the single-IP external lookup: the returned value
(None via the for-else when all five attempts fail) together with the
number of one-second pauses taken. -/
def get_ip_location_from_geolocation_db (f : Nat → AttemptOutcome) :
    Option LookupData × Nat :=
  geoAttempts.foldl (attemptStep f) (none, 0)

/-- A successful parse carrying no attributes. -/
def emptyLookupData : LookupData := ⟨none, none, none, none, none, none, none, none⟩

/-- C6 counterexample: two runs whose first attempt fails — once by an
exception, once by a non-200 response — and whose second attempt
succeeds, behave differently: only the exception is followed by a
one-second pause, so the two failure kinds are not treated identically
and a non-200 failure is retried with no pause. -/
theorem retry_nonuniform_pause :
    get_ip_location_from_geolocation_db
        (fun i => if i == 0 then .exc else .success emptyLookupData) =
      (some emptyLookupData, 1) ∧
    get_ip_location_from_geolocation_db
        (fun i => if i == 0 then .non200 else .success emptyLookupData) =
      (some emptyLookupData, 0) := ⟨rfl, rfl⟩

/-- C6 (amended): both non-200 responses and exceptions count as failed
attempts for the returned value — the first success among the five
attempts is returned, and null is returned after all five fail — but the
one-second pause is taken only after an exception (and never after the
fifth attempt); a non-200 failure proceeds to the next attempt without
pausing. -/
theorem retry_loop_spec (f : Nat → AttemptOutcome) :
    ((∀ i, i < 5 → ∀ d, f i ≠ .success d) →
      get_ip_location_from_geolocation_db f =
        (none, ((List.range 4).filter (fun j => f j == .exc)).length)) ∧
    (∀ i d, i < 5 → f i = .success d → (∀ j, j < i → ∀ d', f j ≠ .success d') →
      get_ip_location_from_geolocation_db f =
        (some d, ((List.range i).filter (fun j => f j == .exc)).length)) := by
  constructor
  · intro h
    have h0 := h 0 (by norm_num)
    have h1 := h 1 (by norm_num)
    have h2 := h 2 (by norm_num)
    have h3 := h 3 (by norm_num)
    have h4 := h 4 (by norm_num)
    rcases hf0 : f 0 with d | _ | _ <;> try exact absurd hf0 (h0 _)
    all_goals rcases hf1 : f 1 with d | _ | _ <;> try exact absurd hf1 (h1 _)
    all_goals rcases hf2 : f 2 with d | _ | _ <;> try exact absurd hf2 (h2 _)
    all_goals rcases hf3 : f 3 with d | _ | _ <;> try exact absurd hf3 (h3 _)
    all_goals rcases hf4 : f 4 with d | _ | _ <;> try exact absurd hf4 (h4 _)
    all_goals simp [get_ip_location_from_geolocation_db, geoAttempts, attemptStep,
      hf0, hf1, hf2, hf3, hf4, List.range_succ]
  · intro i d hi hfi hprev
    interval_cases i
    · simp [get_ip_location_from_geolocation_db, geoAttempts, attemptStep, hfi]
    · have h0 := hprev 0 (by norm_num)
      rcases hf0 : f 0 with d0 | _ | _ <;> try exact absurd hf0 (h0 _)
      all_goals simp [get_ip_location_from_geolocation_db, geoAttempts, attemptStep,
        hf0, hfi, List.range_succ]
    · have h0 := hprev 0 (by norm_num)
      have h1 := hprev 1 (by norm_num)
      rcases hf0 : f 0 with d0 | _ | _ <;> try exact absurd hf0 (h0 _)
      all_goals rcases hf1 : f 1 with d1 | _ | _ <;> try exact absurd hf1 (h1 _)
      all_goals simp [get_ip_location_from_geolocation_db, geoAttempts, attemptStep,
        hf0, hf1, hfi, List.range_succ]
    · have h0 := hprev 0 (by norm_num)
      have h1 := hprev 1 (by norm_num)
      have h2 := hprev 2 (by norm_num)
      rcases hf0 : f 0 with d0 | _ | _ <;> try exact absurd hf0 (h0 _)
      all_goals rcases hf1 : f 1 with d1 | _ | _ <;> try exact absurd hf1 (h1 _)
      all_goals rcases hf2 : f 2 with d2 | _ | _ <;> try exact absurd hf2 (h2 _)
      all_goals simp [get_ip_location_from_geolocation_db, geoAttempts, attemptStep,
        hf0, hf1, hf2, hfi, List.range_succ]
    · have h0 := hprev 0 (by norm_num)
      have h1 := hprev 1 (by norm_num)
      have h2 := hprev 2 (by norm_num)
      have h3 := hprev 3 (by norm_num)
      rcases hf0 : f 0 with d0 | _ | _ <;> try exact absurd hf0 (h0 _)
      all_goals rcases hf1 : f 1 with d1 | _ | _ <;> try exact absurd hf1 (h1 _)
      all_goals rcases hf2 : f 2 with d2 | _ | _ <;> try exact absurd hf2 (h2 _)
      all_goals rcases hf3 : f 3 with d3 | _ | _ <;> try exact absurd hf3 (h3 _)
      all_goals simp [get_ip_location_from_geolocation_db, geoAttempts, attemptStep,
        hf0, hf1, hf2, hf3, hfi, List.range_succ]

/-- C6 witness: the amended statement applied to a run of five
exceptions (null result, four pauses) and to a run whose third attempt
succeeds after two exceptions (two pauses). -/
theorem retry_loop_spec_witness :
    get_ip_location_from_geolocation_db (fun _ => .exc) = (none, 4) ∧
    get_ip_location_from_geolocation_db
        (fun i => if i == 2 then .success emptyLookupData else .exc) =
      (some emptyLookupData, 2) :=
  ⟨(retry_loop_spec (fun _ => .exc)).1
      (fun _ _ _ h => AttemptOutcome.noConfusion h),
   (retry_loop_spec (fun i => if i == 2 then .success emptyLookupData else .exc)).2
      2 emptyLookupData (by norm_num) rfl
      (by
        intro j hj d' h
        interval_cases j <;> exact AttemptOutcome.noConfusion h)⟩

/-- One row of the `ip_df` argument of `get_ip_from_ip2location`: the
deduplicated `(cleaned_ip, cleaned_ip_int)` pairs extracted by
`__extract_ip` (sec_edgar.py lines 326-340). -/
structure IpRow where
  cleaned_ip : Option String
  cleaned_ip_int : Option Nat
deriving DecidableEq, Repr

/-- One row of the combined IP-location table maintained by
`IPRetriever` (ip_retriever.py lines 39-54): the GeoRecord fields keyed
by the integer range, plus the attempted flag. Latitude and longitude
payloads are embedded as integers since no claim computes with them. -/
structure GeoRow where
  ip_from : Nat
  ip_to : Nat
  country_code : Option String
  country_name : Option String
  region_name : Option String
  city_name : Option String
  latitude : Option Int
  longitude : Option Int
  zip_code : Option String
  timezone : Option String
  geolocation_db_attempted : Option Bool
deriving DecidableEq, Repr

/-- The needs-lookup condition on one joined row (ip_retriever.py lines
140-147): `geolocation_db_attempted` equal to False or null, and
`country_code` null. -/
def lookupNeeded (att : Option Bool) (cc : Option String) : Bool :=
  (att == some false || att.isNone) && cc.isNone

/-- The left-join matches of one input key against the combined table
(join on `cleaned_ip_int = ip_from`, lines 131-137); a null key joins
nothing. -/
def joinMatches (cache : List GeoRow) (k : Option Nat) : List GeoRow :=
  match k with
  | none => []
  | some n => cache.filter (fun r => r.ip_from == n)

/-- Whether one input row lands in the needs-lookup subset: a non-null
`cleaned_ip` (line 148) whose joined columns satisfy `lookupNeeded` (an
unmatched key joins null columns, which satisfy it). -/
def rowNeedsLookup (cache : List GeoRow) (row : IpRow) : Bool :=
  row.cleaned_ip.isSome &&
    (let ms := joinMatches cache row.cleaned_ip_int
     if ms.isEmpty then lookupNeeded none none
     else ms.any (fun r => lookupNeeded r.geolocation_db_attempted r.country_code))

/-- The deduplicated list of IPs sent to the external service
(lines 140-153 and 160). -/
def ip_with_missing_country_code_list (cache : List GeoRow) (df : List IpRow) :
    List String :=
  ((df.filter (fun row => rowNeedsLookup cache row)).filterMap
    (fun row => row.cleaned_ip)).dedup

/-- The row built for one processed IP in the result-collection loop
(lines 183-194): both keys are `int(IPv4Address(ip))`, the attributes
come from the worker's result — all null when the worker returned an
empty dict because the lookup ultimately failed — and
`geolocation_db_attempted` is set to True. -/
def attemptedRow (n : Nat) (res : Option LookupData) : GeoRow :=
  { ip_from := n
    ip_to := n
    country_code := res.bind (fun d => d.country_code)
    country_name := res.bind (fun d => d.country_name)
    region_name := res.bind (fun d => d.region_name)
    city_name := res.bind (fun d => d.city_name)
    latitude := res.bind (fun d => d.latitude)
    longitude := res.bind (fun d => d.longitude)
    zip_code := res.bind (fun d => d.zip_code)
    timezone := res.bind (fun d => d.timezone)
    geolocation_db_attempted := some true }

/-- The appended row for one IP, or `none` when `int(IPv4Address(ip))`
raises, in which case the exception is caught (lines 196-198) and no row
is appended. -/
def newGeoRow (ip : String) (res : Option LookupData) : Option GeoRow :=
  (ipStrToInt ip).map (fun n => attemptedRow n res)

/-- The merge filter over the existing table (lines 204-205): keep rows
already resolved or already attempted. -/
def keepRow (r : GeoRow) : Bool :=
  r.country_code.isSome || r.geolocation_db_attempted == some true

/-- The outcome of one `get_ip_from_ip2location` call: the resulting
combined table, the IPs that were sent to the external service, and
whether the persisted file was rewritten. -/
structure ResolveResult where
  table : List GeoRow
  lookedUp : List String
  wrote : Bool
deriving Repr

/-- One `get_ip_from_ip2location` resolution round (ip_retriever.py
lines 115-224), parameterized by an oracle giving each IP's
external-lookup outcome (`none` models a lookup that ultimately failed
after its retries, i.e. the worker returned an empty dict). When the
needs-lookup subset is empty the existing table is returned unchanged
with no lookup and no write (lines 155-156); otherwise the kept rows and
the new batch are concatenated and persisted (lines 203-224). -/
def get_ip_from_ip2location (oracle : String → Option LookupData)
    (cache : List GeoRow) (df : List IpRow) : ResolveResult :=
  if (ip_with_missing_country_code_list cache df).isEmpty then ⟨cache, [], false⟩
  else ⟨cache.filter keepRow ++
          (ip_with_missing_country_code_list cache df).filterMap
            (fun ip => newGeoRow ip (oracle ip)),
        ip_with_missing_country_code_list cache df, true⟩

/-- Cache tables reachable from a starting table by zero or more
resolution rounds within one cache lifetime. -/
inductive resolvesTo : List GeoRow → List GeoRow → Prop where
  | refl (t : List GeoRow) : resolvesTo t t
  | step (t t' : List GeoRow) (oracle : String → Option LookupData) (df : List IpRow) :
      resolvesTo t t' → resolvesTo t (get_ip_from_ip2location oracle t' df).table

theorem newGeoRow_attempted {ip : String} {res : Option LookupData} {r : GeoRow}
    (h : newGeoRow ip res = some r) : r.geolocation_db_attempted = some true := by
  obtain ⟨n, _, rfl⟩ := Option.map_eq_some'.mp h
  rfl

theorem blocked_of_mem_merged {oracle : String → Option LookupData}
    {cache : List GeoRow} {ips : List String} {r : GeoRow}
    (hr : r ∈ cache.filter keepRow ++
      ips.filterMap (fun ip => newGeoRow ip (oracle ip))) :
    lookupNeeded r.geolocation_db_attempted r.country_code = false := by
  rcases List.mem_append.mp hr with h1 | h1
  · have hk := (List.mem_filter.mp h1).2
    cases h2 : r.country_code with
    | some v => simp [lookupNeeded, h2]
    | none =>
      have h3 : r.geolocation_db_attempted = some true := by
        simp [keepRow, h2] at hk
        exact hk
      simp [lookupNeeded, h3]
  · obtain ⟨a, _, hrow⟩ := List.mem_filterMap.mp h1
    simp [lookupNeeded, newGeoRow_attempted hrow]

theorem resolve_output_blocked (oracle : String → Option LookupData)
    (t : List GeoRow) (df : List IpRow)
    (hb : ∀ r ∈ t, lookupNeeded r.geolocation_db_attempted r.country_code = false) :
    ∀ r ∈ (get_ip_from_ip2location oracle t df).table,
      lookupNeeded r.geolocation_db_attempted r.country_code = false := by
  intro r hr
  unfold get_ip_from_ip2location at hr
  split at hr
  · exact hb r hr
  · exact blocked_of_mem_merged hr

theorem attempted_row_persists {r : GeoRow} {t : List GeoRow}
    (oracle : String → Option LookupData) (df : List IpRow)
    (hr : r ∈ t) (hatt : r.geolocation_db_attempted = some true) :
    r ∈ (get_ip_from_ip2location oracle t df).table := by
  unfold get_ip_from_ip2location
  split
  · exact hr
  · exact List.mem_append_left _ (List.mem_filter.mpr ⟨hr, by simp [keepRow, hatt]⟩)

theorem resolvesTo_invariant {t0 t2 : List GeoRow} (h : resolvesTo t0 t2)
    (r0 : GeoRow) (hr : r0 ∈ t0) (hatt : r0.geolocation_db_attempted = some true)
    (hb : ∀ r ∈ t0, lookupNeeded r.geolocation_db_attempted r.country_code = false) :
    r0 ∈ t2 ∧
    ∀ r ∈ t2, lookupNeeded r.geolocation_db_attempted r.country_code = false := by
  induction h with
  | refl => exact ⟨hr, hb⟩
  | step t' oracle df _ ih =>
    obtain ⟨hmem', hb'⟩ := ih
    exact ⟨attempted_row_persists oracle df hmem' hatt,
           resolve_output_blocked oracle t' df hb'⟩

theorem not_needed_of_blocked {t : List GeoRow} {ip : String} {n : Nat}
    (hip : ipStrToInt ip = some n)
    (hb : ∀ r ∈ t, lookupNeeded r.geolocation_db_attempted r.country_code = false)
    (hmatch : ∃ r ∈ t, r.ip_from = n)
    (df2 : List IpRow)
    (hwf : ∀ q ∈ df2, q.cleaned_ip_int = q.cleaned_ip.bind ipStrToInt) :
    ip ∉ ip_with_missing_country_code_list t df2 := by
  intro hin
  unfold ip_with_missing_country_code_list at hin
  rw [List.mem_dedup] at hin
  obtain ⟨row, hrow, hcip⟩ := List.mem_filterMap.mp hin
  have hrowmem := (List.mem_filter.mp hrow).1
  have hneed := (List.mem_filter.mp hrow).2
  have hint : row.cleaned_ip_int = some n := by
    have hq := hwf row hrowmem
    rw [hcip] at hq
    simpa [hip] using hq
  obtain ⟨r0, hr0t, hr0n⟩ := hmatch
  have hms : r0 ∈ joinMatches t (some n) := by
    unfold joinMatches
    exact List.mem_filter.mpr ⟨hr0t, by simp [hr0n]⟩
  have hne : (joinMatches t (some n)).isEmpty = false := by
    cases hjoin : joinMatches t (some n) with
    | nil => rw [hjoin] at hms; exact absurd hms (by simp)
    | cons a as => rfl
  unfold rowNeedsLookup at hneed
  rw [hint, Bool.and_eq_true] at hneed
  have hB := hneed.2
  simp [hne] at hB
  obtain ⟨r, hrms, hcond⟩ := hB
  have hrt : r ∈ t := by
    unfold joinMatches at hrms
    exact (List.mem_filter.mp hrms).1
  rw [hb r hrt] at hcond
  exact absurd hcond (by simp)

/-- C5: once an IP is sent to the external service in a resolution
round — in particular when its lookup ultimately fails, in which case a
row with `geolocation_db_attempted = true` and all other geolocation
attributes null is recorded — that IP is excluded from the needs-lookup
subset of every later resolution round within the same cache lifetime,
for any input whose `cleaned_ip_int` column is consistent with its
`cleaned_ip` column; the same holds when the lookup succeeded. -/
theorem geo_attempted_never_requeried (oracle : String → Option LookupData)
    (cache : List GeoRow) (df : List IpRow) (ip : String) (n : Nat)
    (hip : ipStrToInt ip = some n)
    (hmem : ip ∈ ip_with_missing_country_code_list cache df) :
    (oracle ip = none →
      ∃ r ∈ (get_ip_from_ip2location oracle cache df).table,
        r.ip_from = n ∧ r.geolocation_db_attempted = some true ∧
        r.country_code = none ∧ r.country_name = none ∧ r.region_name = none ∧
        r.city_name = none ∧ r.latitude = none ∧ r.longitude = none ∧
        r.zip_code = none ∧ r.timezone = none) ∧
    (∀ t2, resolvesTo (get_ip_from_ip2location oracle cache df).table t2 →
      ∀ df2 : List IpRow,
        (∀ q ∈ df2, q.cleaned_ip_int = q.cleaned_ip.bind ipStrToInt) →
        ip ∉ ip_with_missing_country_code_list t2 df2) := by
  have hne : (ip_with_missing_country_code_list cache df).isEmpty = false := by
    cases h : ip_with_missing_country_code_list cache df with
    | nil => rw [h] at hmem; exact absurd hmem (by simp)
    | cons a as => rfl
  have hrowStar : newGeoRow ip (oracle ip) = some (attemptedRow n (oracle ip)) := by
    unfold newGeoRow
    rw [hip]
    rfl
  have htab : (get_ip_from_ip2location oracle cache df).table =
      cache.filter keepRow ++
        (ip_with_missing_country_code_list cache df).filterMap
          (fun ip => newGeoRow ip (oracle ip)) := by
    unfold get_ip_from_ip2location
    split
    · simp_all
    · rfl
  have hmemStar : attemptedRow n (oracle ip) ∈
      (get_ip_from_ip2location oracle cache df).table := by
    rw [htab]
    exact List.mem_append_right _ (List.mem_filterMap.mpr ⟨ip, hmem, hrowStar⟩)
  constructor
  · intro hfail
    rw [hfail] at hmemStar
    exact ⟨attemptedRow n none, hmemStar, rfl, rfl, rfl, rfl, rfl, rfl, rfl, rfl,
      rfl, rfl⟩
  · intro t2 hreach df2 hwf
    have hbtab : ∀ r ∈ (get_ip_from_ip2location oracle cache df).table,
        lookupNeeded r.geolocation_db_attempted r.country_code = false := by
      intro r hr
      rw [htab] at hr
      exact blocked_of_mem_merged hr
    have hinv := resolvesTo_invariant hreach (attemptedRow n (oracle ip))
      hmemStar rfl hbtab
    exact not_needed_of_blocked hip hinv.2 ⟨attemptedRow n (oracle ip), hinv.1, rfl⟩
      df2 hwf

/-- A sample input row pairing a cleaned IP with its integer key. -/
def inputRow : IpRow := ⟨some "1.2.3.0", some 16909056⟩

/-- C5 witness: on an empty cache the IP `1.2.3.0` is looked up, its
failed lookup is recorded with the attempted flag set and null
attributes, and it is not re-queried when the same input is resolved
against the updated table. -/
theorem geo_attempted_never_requeried_witness :
    (∃ r ∈ (get_ip_from_ip2location (fun _ => none) [] [inputRow]).table,
      r.ip_from = 16909056 ∧ r.geolocation_db_attempted = some true ∧
      r.country_code = none ∧ r.country_name = none ∧ r.region_name = none ∧
      r.city_name = none ∧ r.latitude = none ∧ r.longitude = none ∧
      r.zip_code = none ∧ r.timezone = none) ∧
    "1.2.3.0" ∉ ip_with_missing_country_code_list
      (get_ip_from_ip2location (fun _ => none) [] [inputRow]).table [inputRow] := by
  have h := geo_attempted_never_requeried (fun _ => none) [] [inputRow]
    "1.2.3.0" 16909056 rfl (by decide)
  exact ⟨h.1 rfl, h.2 _ (resolvesTo.refl _) [inputRow] (by decide)⟩

/-- A sample cached row already resolved to a country. -/
def cachedRow : GeoRow :=
  ⟨16909056, 16909056, some "US", some "United States", none, none, none, none,
   none, none, some false⟩

/-- C8: when the needs-lookup subset is empty, a resolution round sends
no IP to the external service, performs no write to the persisted cache
file, and returns the existing persisted table unchanged. -/
theorem resolve_noop_on_empty (oracle : String → Option LookupData)
    (cache : List GeoRow) (df : List IpRow)
    (h : ip_with_missing_country_code_list cache df = []) :
    get_ip_from_ip2location oracle cache df = ⟨cache, [], false⟩ := by
  simp [get_ip_from_ip2location, h]

/-- C8 witness: an input whose only IP is already resolved in the cache
triggers the no-op branch. -/
theorem resolve_noop_on_empty_witness :
    get_ip_from_ip2location (fun _ => none) [cachedRow] [inputRow] =
      ⟨[cachedRow], [], false⟩ :=
  resolve_noop_on_empty (fun _ => none) [cachedRow] [inputRow] (by decide)

/-- One row of the persisted country mapping table
(sec_edgar.py lines 470-477). -/
structure CountryRow where
  raw_country_name : Option String
  cleaned_country_name : Option String
deriving DecidableEq, Repr

/-- The `convert_country` helper (lines 492-497), parameterized by the
external converter: `none` models the converter raising, in which case
the raw name itself is returned. -/
def convert_country (conv : String → Option String) (name : String) : String :=
  (conv name).getD name

/-- The anti-join of the input country names against the existing
mapping, deduplicated (lines 479-488); null names never join, so they
always count as unmapped, and mapping rows with a null raw name match
nothing. -/
def unmapped_countries (mapping : List CountryRow) (names : List (Option String)) :
    List (Option String) :=
  (names.filter (fun nm =>
    match nm with
    | none => true
    | some s => !(mapping.any (fun r => r.raw_country_name == some s)))).dedup

/-- The newly converted rows (lines 499-502); `map_elements` skips null
inputs, so a null raw name yields a null cleaned name. -/
def new_mappings (conv : String → Option String) (mapping : List CountryRow)
    (names : List (Option String)) : List CountryRow :=
  (unmapped_countries mapping names).map
    (fun nm => ⟨nm, nm.map (convert_country conv)⟩)

/-- The updated master mapping written by `__clean_country_names`
(lines 504-512): the new rows prepended to the existing table. -/
def clean_country_names (conv : String → Option String) (mapping : List CountryRow)
    (names : List (Option String)) : List CountryRow :=
  new_mappings conv mapping names ++ mapping

/-- C9: the country mapping grows monotonically — every existing row
survives a normalization call, the table's cardinality never decreases,
and afterwards every raw country name appearing in the input has an
entry; a previously unmapped name whose conversion fails is mapped to
itself. -/
theorem country_mapping_monotone (conv : String → Option String)
    (mapping : List CountryRow) (names : List (Option String)) :
    (∀ r ∈ mapping, r ∈ clean_country_names conv mapping names) ∧
    mapping.length ≤ (clean_country_names conv mapping names).length ∧
    (∀ s : String, some s ∈ names →
      (∃ r ∈ clean_country_names conv mapping names, r.raw_country_name = some s) ∧
      ((¬ ∃ r ∈ mapping, r.raw_country_name = some s) → conv s = none →
        (⟨some s, some s⟩ : CountryRow) ∈ clean_country_names conv mapping names)) := by
  refine ⟨?_, ?_, ?_⟩
  · intro r hr
    exact List.mem_append_right _ hr
  · unfold clean_country_names
    rw [List.length_append]
    exact Nat.le_add_left _ _
  · intro s hs
    by_cases hmapped : ∃ r ∈ mapping, r.raw_country_name = some s
    · obtain ⟨r, hrm, hrn⟩ := hmapped
      refine ⟨⟨r, List.mem_append_right _ hrm, hrn⟩, ?_⟩
      intro hno
      exact absurd ⟨r, hrm, hrn⟩ hno
    · have hany : mapping.any (fun r => r.raw_country_name == some s) = false := by
        rw [Bool.eq_false_iff]
        intro hcontra
        obtain ⟨r, hrm, hrb⟩ := List.any_eq_true.mp hcontra
        exact hmapped ⟨r, hrm, by simpa using hrb⟩
      have hunm : some s ∈ unmapped_countries mapping names := by
        unfold unmapped_countries
        rw [List.mem_dedup]
        exact List.mem_filter.mpr ⟨hs, by simp [hany]⟩
      have hnew : (⟨some s, some (convert_country conv s)⟩ : CountryRow) ∈
          new_mappings conv mapping names := by
        unfold new_mappings
        exact List.mem_map.mpr ⟨some s, hunm, rfl⟩
      refine ⟨⟨⟨some s, some (convert_country conv s)⟩,
        List.mem_append_left _ hnew, rfl⟩, ?_⟩
      intro _ hconv
      have hid : convert_country conv s = s := by
        unfold convert_country
        rw [hconv]
        rfl
      rw [hid] at hnew
      exact List.mem_append_left _ hnew

/-- C9 witness: a table already mapping Germany, fed the unmapped name
USA under a converter that always fails: the Germany row survives, the
length does not decrease, and USA is mapped to itself. -/
theorem country_mapping_monotone_witness :
    (⟨some "Germany", some "Germany"⟩ : CountryRow) ∈
      clean_country_names (fun _ => none)
        [⟨some "Germany", some "Germany"⟩] [some "USA", none] ∧
    (⟨some "USA", some "USA"⟩ : CountryRow) ∈
      clean_country_names (fun _ => none)
        [⟨some "Germany", some "Germany"⟩] [some "USA", none] := by
  have h := country_mapping_monotone (fun _ => none)
    [⟨some "Germany", some "Germany"⟩] [some "USA", none]
  exact ⟨h.1 _ (by simp), (h.2.2 "USA" (by simp)).2 (by decide) rfl⟩
